import Mathlib

/-!
Shallow embedding of `pipeline.py`, a three-stage batch ETL pipeline over
tabular (CSV) files, together with proofs about its transformation logic.

Modelling conventions:
* a CSV cell is `Option String`; `none` models a missing value (pandas `NaN`);
* a table is a `List` of rows; each stage of the pipeline has a fixed row
  schema, given by a structure whose fields are the columns the stage uses;
* file contents and the filesystem are explicit values threaded through the
  orchestrator; log output is returned as a list of log events.
-/

namespace Pipeline

/-- A cell of a tabular file; `none` models a missing value (pandas `NaN`). -/
abbrev Cell := Option String

/-- A row of the primary street table (`2022-01-cheshire-street.csv`): the
columns `pipeline.py` refers to by name (`Crime ID`, `Crime type`,
`Last outcome category`, and the three columns dropped by
`del_values_street`: `Reported by`, `Context`, `Location`). -/
structure StreetRow where
  Crime_ID : Cell
  Crime_type : Cell
  Last_outcome_category : Cell
  Reported_by : Cell
  Context : Cell
  Location : Cell
deriving DecidableEq

/-- A row of the outcomes table: `merge_data` only uses its `Crime ID` and
`Outcome type` columns (`df_outcomes[['Crime ID', 'Outcome type']]`). -/
structure OutcomeRow where
  Crime_ID : Cell
  Outcome_type : Cell
deriving DecidableEq

/-- A row after the left join of `merge_data`: the street columns plus the
`Outcome type` column brought in from the outcomes table. -/
structure MergedRow where
  Crime_ID : Cell
  Crime_type : Cell
  Last_outcome_category : Cell
  Reported_by : Cell
  Context : Cell
  Location : Cell
  Outcome_type : Cell
deriving DecidableEq

/-- A staged row: `del_values_street` has dropped `Reported by`, `Context`
and `Location`. -/
structure StagedRow where
  Crime_ID : Cell
  Crime_type : Cell
  Last_outcome_category : Cell
  Outcome_type : Cell
deriving DecidableEq

/-- A row after `finaloutcome` has appended the `Final Outcome` column. -/
structure ResolvedRow where
  Crime_ID : Cell
  Crime_type : Cell
  Last_outcome_category : Cell
  Outcome_type : Cell
  Final_Outcome : Cell
deriving DecidableEq

/-- A processed row: `apply_categorization` has appended the
`Broad Outcome Category` column.  The category cell is a `Cell` because a
processed table is re-read from CSV before reporting, and an arbitrary CSV
cell may be empty. -/
structure ProcessedRow where
  Crime_ID : Cell
  Crime_type : Cell
  Last_outcome_category : Cell
  Outcome_type : Cell
  Final_Outcome : Cell
  Broad_Outcome_Category : Cell
deriving DecidableEq

/-- A row of the reporting aggregate: a (crime type, broad category) group
key and the group's size (`.size().reset_index(name='Count')`). -/
structure AggRow where
  Crime_type : String
  Broad_Outcome_Category : String
  Count : Nat
deriving DecidableEq

/-! ### Staging transform: `merge_data` and `del_values_street` -/

/-- The outcomes rows whose `Crime ID` equals `k` (the match set of one left
row in the left join of `merge_data`). -/
def matchesFor (df_outcomes : List OutcomeRow) (k : Cell) : List OutcomeRow :=
  df_outcomes.filter (fun o => o.Crime_ID == k)

/-- One output row of the left join: the street columns of `r` plus an
`Outcome type` value. -/
def mergeRow (r : StreetRow) (ot : Cell) : MergedRow :=
  ⟨r.Crime_ID, r.Crime_type, r.Last_outcome_category,
   r.Reported_by, r.Context, r.Location, ot⟩

/-- The output rows of the left join for one left row `r`: one row per
matching outcomes row, or a single row with a null `Outcome type` when there
is no match. -/
def mergeRowSet (df_outcomes : List OutcomeRow) (r : StreetRow) :
    List MergedRow :=
  match matchesFor df_outcomes r.Crime_ID with
  | [] => [mergeRow r none]
  | ms => ms.map (fun o => mergeRow r o.Outcome_type)

/-- Embeds `merge_data`: `pd.merge(df, df_outcomes[['Crime ID', 'Outcome type']],
how='left', on='Crime ID')`.  A left outer join: every left row appears; a
left row with at least one match produces one output row per matching
outcomes row, and a left row with no match produces a single output row with
a null `Outcome type`. -/
def merge_data (df : List StreetRow) (df_outcomes : List OutcomeRow) :
    List MergedRow :=
  df.flatMap (mergeRowSet df_outcomes)

/-- Embeds `del_values_street`: drop the columns `Reported by`, `Context`,
`Location`. -/
def del_values_street (df : List MergedRow) : List StagedRow :=
  df.map (fun r => ⟨r.Crime_ID, r.Crime_type, r.Last_outcome_category,
                    r.Outcome_type⟩)

/-! ### Processing transform: `finaloutcome` and `apply_categorization` -/

/-- The per-row lambda of `finaloutcome`:
`row['Outcome type'] if pd.notnull(row['Outcome type']) else
row['Last outcome category']`. -/
def finaloutcome_row (r : StagedRow) : ResolvedRow :=
  ⟨r.Crime_ID, r.Crime_type, r.Last_outcome_category, r.Outcome_type,
   if r.Outcome_type.isSome then r.Outcome_type else r.Last_outcome_category⟩

/-- Embeds `finaloutcome`: append the `Final Outcome` column via `df.apply(...,
axis=1)`. -/
def finaloutcome (df : List StagedRow) : List ResolvedRow :=
  df.map finaloutcome_row

/-- Membership test of a cell in a list of strings, the Python
`outcome in [...]`: a missing value (`NaN`) is in no list. -/
def cellMem (outcome : Cell) (l : List String) : Bool :=
  match outcome with
  | some s => decide (s ∈ l)
  | none => false

/-- The first membership list of `categorize_outcome`. -/
def noFurtherActionList : List String :=
  ["Unable to prosecute suspect",
   "Investigation complete; no suspect identified",
   "Status update unavailable"]

/-- The second membership list of `categorize_outcome`. -/
def nonCriminalList : List String :=
  ["Local resolution",
   "Offender given a caution",
   "Action to be taken by another organisation",
   "Awaiting court outcome"]

/-- The third membership list of `categorize_outcome`. -/
def publicInterestList : List String :=
  ["Further investigation is not in the public interest",
   "Further action is not in the public interest",
   "Formal action is not in the public interest"]

/-- Embeds `categorize_outcome`: the if/elif/else chain of fixed membership lists,
defaulting to `"Unknown"`. -/
def categorize_outcome (outcome : Cell) : String :=
  if cellMem outcome noFurtherActionList then "No Further Action"
  else if cellMem outcome nonCriminalList then "Non-criminal Outcome"
  else if cellMem outcome publicInterestList then "Public Interest Consideration"
  else "Unknown"

/-- Embeds `apply_categorization`: append the `Broad Outcome Category` column,
`df['Final Outcome'].apply(categorize_outcome)`.  The result of
`categorize_outcome` is always a (non-empty) string, hence a non-null
cell. -/
def apply_categorization (df : List ResolvedRow) : List ProcessedRow :=
  df.map (fun r => ⟨r.Crime_ID, r.Crime_type, r.Last_outcome_category,
                    r.Outcome_type, r.Final_Outcome,
                    some (categorize_outcome r.Final_Outcome)⟩)

/-! ### Facts about the processing transform (claims C1, C2, C8) -/

theorem finaloutcome_length (df : List StagedRow) :
    (finaloutcome df).length = df.length := by
  simp [finaloutcome]

/-- Claim C1: for every row of the staged table, the derived `Final Outcome`
equals the row's `Outcome type` value when that value is non-null, and
otherwise equals the row's `Last outcome category` value. -/
theorem finaloutcome_resolution (df : List StagedRow) (i : Nat)
    (hi : i < df.length) :
    ∃ hi2 : i < (finaloutcome df).length,
      ((df.get ⟨i, hi⟩).Outcome_type ≠ none →
        ((finaloutcome df).get ⟨i, hi2⟩).Final_Outcome
          = (df.get ⟨i, hi⟩).Outcome_type) ∧
      ((df.get ⟨i, hi⟩).Outcome_type = none →
        ((finaloutcome df).get ⟨i, hi2⟩).Final_Outcome
          = (df.get ⟨i, hi⟩).Last_outcome_category) := by
  refine ⟨by simpa [finaloutcome_length] using hi, ?_, ?_⟩ <;>
    intro h <;>
    simp [finaloutcome, finaloutcome_row] <;>
    rcases hot : (df.get ⟨i, hi⟩).Outcome_type with _ | v <;>
    simp_all [finaloutcome_row]

/-- Concrete instance of `finaloutcome_resolution`: a one-row staged table
with a non-null `Outcome type`. -/
theorem finaloutcome_resolution_witness :
    (0 < ([⟨some "id1", some "Burglary", some "Status update unavailable",
            some "Local resolution"⟩] : List StagedRow).length) ∧
    (∃ hi2 : 0 < (finaloutcome [⟨some "id1", some "Burglary",
        some "Status update unavailable", some "Local resolution"⟩]).length,
      ((([⟨some "id1", some "Burglary", some "Status update unavailable",
            some "Local resolution"⟩] : List StagedRow).get
          ⟨0, by decide⟩).Outcome_type ≠ none →
        ((finaloutcome [⟨some "id1", some "Burglary",
            some "Status update unavailable", some "Local resolution"⟩]).get
          ⟨0, hi2⟩).Final_Outcome
          = (([⟨some "id1", some "Burglary", some "Status update unavailable",
                some "Local resolution"⟩] : List StagedRow).get
              ⟨0, by decide⟩).Outcome_type) ∧
      ((([⟨some "id1", some "Burglary", some "Status update unavailable",
            some "Local resolution"⟩] : List StagedRow).get
          ⟨0, by decide⟩).Outcome_type = none →
        ((finaloutcome [⟨some "id1", some "Burglary",
            some "Status update unavailable", some "Local resolution"⟩]).get
          ⟨0, hi2⟩).Final_Outcome
          = (([⟨some "id1", some "Burglary", some "Status update unavailable",
                some "Local resolution"⟩] : List StagedRow).get
              ⟨0, by decide⟩).Last_outcome_category)) :=
  ⟨by decide, finaloutcome_resolution _ 0 (by decide)⟩

/-- Claim C8: the derived `Final Outcome` is non-null whenever at least one
of the two source fields (`Outcome type`, `Last outcome category`) is
non-null. -/
theorem finaloutcome_nonnull (r : StagedRow)
    (h : r.Outcome_type ≠ none ∨ r.Last_outcome_category ≠ none) :
    (finaloutcome_row r).Final_Outcome ≠ none := by
  rcases hot : r.Outcome_type with _ | v
  · rcases h with h | h
    · exact absurd hot h
    · simpa [finaloutcome_row, hot] using h
  · simp [finaloutcome_row, hot]

/-- Concrete instance of `finaloutcome_nonnull`: null `Outcome type`,
non-null `Last outcome category`. -/
theorem finaloutcome_nonnull_witness :
    ((⟨some "id1", some "Burglary", some "Status update unavailable",
        none⟩ : StagedRow).Outcome_type ≠ none ∨
      (⟨some "id1", some "Burglary", some "Status update unavailable",
        none⟩ : StagedRow).Last_outcome_category ≠ none) ∧
    (finaloutcome_row ⟨some "id1", some "Burglary",
        some "Status update unavailable", none⟩).Final_Outcome ≠ none :=
  ⟨Or.inr (by decide), finaloutcome_nonnull _ (Or.inr (by decide))⟩

theorem noFurtherAction_disjoint :
    (∀ s ∈ noFurtherActionList, s ∉ nonCriminalList ∧ s ∉ publicInterestList)
      ∧ ∀ s ∈ nonCriminalList, s ∉ publicInterestList := by
  decide

/-- Claim C2: `categorize_outcome` returns `"No Further Action"` exactly on
the no-action list, `"Non-criminal Outcome"` exactly on the non-criminal
list, `"Public Interest Consideration"` exactly on the public-interest list,
and `"Unknown"` for every other value, including null. -/
theorem categorize_outcome_cases (o : Cell) :
    (categorize_outcome o = "No Further Action"
      ↔ cellMem o noFurtherActionList = true) ∧
    (categorize_outcome o = "Non-criminal Outcome"
      ↔ cellMem o nonCriminalList = true) ∧
    (categorize_outcome o = "Public Interest Consideration"
      ↔ cellMem o publicInterestList = true) ∧
    (categorize_outcome o = "Unknown"
      ↔ (cellMem o noFurtherActionList = false ∧
          cellMem o nonCriminalList = false ∧
          cellMem o publicInterestList = false)) ∧
    (o = none → categorize_outcome o = "Unknown") := by
  rcases o with _ | s
  · refine ⟨?_, ?_, ?_, ?_, ?_⟩ <;> simp [categorize_outcome, cellMem]
  · have hd := noFurtherAction_disjoint
    by_cases h1 : s ∈ noFurtherActionList <;>
      by_cases h2 : s ∈ nonCriminalList <;>
      by_cases h3 : s ∈ publicInterestList
    · exact absurd h2 (hd.1 s h1).1
    · exact absurd h2 (hd.1 s h1).1
    · exact absurd h3 (hd.1 s h1).2
    · refine ⟨?_, ?_, ?_, ?_, ?_⟩ <;>
        simp [categorize_outcome, cellMem, h1, h2, h3]
    · exact absurd h3 (hd.2 s h2)
    · refine ⟨?_, ?_, ?_, ?_, ?_⟩ <;>
        simp [categorize_outcome, cellMem, h1, h2, h3]
    · refine ⟨?_, ?_, ?_, ?_, ?_⟩ <;>
        simp [categorize_outcome, cellMem, h1, h2, h3]
    · refine ⟨?_, ?_, ?_, ?_, ?_⟩ <;>
        simp [categorize_outcome, cellMem, h1, h2, h3]

/-- Concrete instance of `categorize_outcome_cases` at the null cell. -/
theorem categorize_outcome_cases_witness :
    (categorize_outcome none = "No Further Action"
      ↔ cellMem none noFurtherActionList = true) ∧
    (categorize_outcome none = "Non-criminal Outcome"
      ↔ cellMem none nonCriminalList = true) ∧
    (categorize_outcome none = "Public Interest Consideration"
      ↔ cellMem none publicInterestList = true) ∧
    (categorize_outcome none = "Unknown"
      ↔ (cellMem none noFurtherActionList = false ∧
          cellMem none nonCriminalList = false ∧
          cellMem none publicInterestList = false)) ∧
    (none = (none : Cell) → categorize_outcome none = "Unknown") :=
  categorize_outcome_cases none

/-! ### Facts about the staging transform (claim C3) -/

theorem mergeRowSet_length_pos (df_outcomes : List OutcomeRow)
    (r : StreetRow) : 1 ≤ (mergeRowSet df_outcomes r).length := by
  unfold mergeRowSet
  rcases h : matchesFor df_outcomes r.Crime_ID with _ | ⟨o, os⟩ <;> simp

theorem mergeRowSet_length_eq_one (df_outcomes : List OutcomeRow)
    (r : StreetRow) (h : (matchesFor df_outcomes r.Crime_ID).length ≤ 1) :
    (mergeRowSet df_outcomes r).length = 1 := by
  unfold mergeRowSet
  rcases hm : matchesFor df_outcomes r.Crime_ID with _ | ⟨o, os⟩
  · simp
  · rw [hm] at h
    simp only [List.length_cons] at h
    have : os = [] := List.eq_nil_of_length_eq_zero (by omega)
    subst this
    simp

theorem mergeRowSet_mem (df_outcomes : List OutcomeRow) (r : StreetRow)
    (m : MergedRow) (hm : m ∈ mergeRowSet df_outcomes r) :
    m.Crime_ID = r.Crime_ID ∧
      (matchesFor df_outcomes r.Crime_ID = [] → m.Outcome_type = none) := by
  unfold mergeRowSet at hm
  rcases h : matchesFor df_outcomes r.Crime_ID with _ | ⟨o, os⟩ <;>
    rw [h] at hm
  · simp only [List.mem_singleton] at hm
    subst hm
    simp [mergeRow]
  · simp only [List.mem_map] at hm
    obtain ⟨o', _, rfl⟩ := hm
    refine ⟨rfl, ?_⟩
    intro he
    simp_all

theorem merge_data_length_ge (df : List StreetRow)
    (df_outcomes : List OutcomeRow) :
    df.length ≤ (merge_data df df_outcomes).length := by
  induction df with
  | nil => simp [merge_data]
  | cons r rest ih =>
    have h1 := mergeRowSet_length_pos df_outcomes r
    simp only [merge_data, List.flatMap_cons, List.length_append,
      List.length_cons] at *
    omega

theorem merge_data_length_eq (df : List StreetRow)
    (df_outcomes : List OutcomeRow)
    (h : ∀ r ∈ df, (matchesFor df_outcomes r.Crime_ID).length ≤ 1) :
    (merge_data df df_outcomes).length = df.length := by
  induction df with
  | nil => simp [merge_data]
  | cons r rest ih =>
    have h1 := mergeRowSet_length_eq_one df_outcomes r
      (h r (List.mem_cons_self r rest))
    have h2 := ih (fun r' hr' => h r' (List.mem_cons_of_mem r hr'))
    simp only [merge_data, List.flatMap_cons, List.length_append,
      List.length_cons] at *
    omega

theorem merge_data_unmatched (df : List StreetRow)
    (df_outcomes : List OutcomeRow) (m : MergedRow)
    (hm : m ∈ merge_data df df_outcomes)
    (hno : matchesFor df_outcomes m.Crime_ID = []) :
    m.Outcome_type = none := by
  simp only [merge_data, List.mem_flatMap] at hm
  obtain ⟨r, _, hmr⟩ := hm
  obtain ⟨hid, himp⟩ := mergeRowSet_mem df_outcomes r m hmr
  exact himp (hid ▸ hno)

/-- Claim C3 (amended): the staged table has at least as many rows as the
primary table — exactly as many when each primary crime identifier matches
at most one outcomes row — and staged rows whose crime identifier has no
match in the outcomes table have a null `Outcome type`.  (As stated, the
claim fails: a pandas left merge duplicates a left row once per matching
right row, see `staging_row_count_counterexample`.) -/
theorem staging_row_count (df : List StreetRow)
    (df_outcomes : List OutcomeRow) :
    df.length ≤ (del_values_street (merge_data df df_outcomes)).length ∧
    ((∀ r ∈ df, (matchesFor df_outcomes r.Crime_ID).length ≤ 1) →
      (del_values_street (merge_data df df_outcomes)).length = df.length) ∧
    (∀ m ∈ del_values_street (merge_data df df_outcomes),
      matchesFor df_outcomes m.Crime_ID = [] → m.Outcome_type = none) := by
  refine ⟨?_, ?_, ?_⟩
  · simpa [del_values_street] using merge_data_length_ge df df_outcomes
  · intro h
    simpa [del_values_street] using merge_data_length_eq df df_outcomes h
  · intro m hm hno
    simp only [del_values_street, List.mem_map] at hm
    obtain ⟨m', hm', rfl⟩ := hm
    exact merge_data_unmatched df df_outcomes m' hm' hno

/-- A one-row primary table. -/
def streetEx : List StreetRow :=
  [⟨some "id1", some "Burglary", some "Status update unavailable",
    some "Cheshire Constabulary", none, some "On or near Park Road"⟩]

/-- An outcomes table with two rows for the same crime identifier. -/
def outcomesDupEx : List OutcomeRow :=
  [⟨some "id1", some "Local resolution"⟩,
   ⟨some "id1", some "Offender given a caution"⟩]

/-- An outcomes table with a single row for the crime identifier. -/
def outcomesUniqEx : List OutcomeRow :=
  [⟨some "id1", some "Local resolution"⟩]

/-- Counterexample to claim C3 as stated: with two outcomes rows sharing one
crime identifier, the staged table has two rows while the primary table has
one. -/
theorem staging_row_count_counterexample :
    (del_values_street (merge_data streetEx outcomesDupEx)).length
      ≠ streetEx.length := by
  decide

/-- Concrete instance of `staging_row_count`: with at most one match per
identifier the staged row count equals the primary row count. -/
theorem staging_row_count_witness :
    (del_values_street (merge_data streetEx outcomesUniqEx)).length
      = streetEx.length :=
  (staging_row_count streetEx outcomesUniqEx).2.1 (by decide)

/-! ### Reporting transform: `reporting_data`'s groupby aggregation -/

/-- The group key of a processed row, as used by
`df.groupby(['Crime type', 'Broad Outcome Category'])`: with the default
`dropna=True`, a row with a null value in either key column belongs to no
group. -/
def groupKeys (df : List ProcessedRow) : List (String × String) :=
  df.filterMap (fun r =>
    match r.Crime_type, r.Broad_Outcome_Category with
    | some c, some b => some (c, b)
    | _, _ => none)

/-- The ascending order on group keys used by groupby's default
`sort=True`: lexicographic, `Crime type` first. -/
def keyLE (a b : String × String) : Prop :=
  a.1 < b.1 ∨ (a.1 = b.1 ∧ a.2 ≤ b.2)

/-- Strict version of `keyLE`. -/
def keyLT (a b : String × String) : Prop :=
  a.1 < b.1 ∨ (a.1 = b.1 ∧ a.2 < b.2)

instance keyLE_decidable : DecidableRel keyLE := fun a b => by
  unfold keyLE
  infer_instance

instance keyLT_decidable : DecidableRel keyLT := fun a b => by
  unfold keyLT
  infer_instance

instance keyLE_total : IsTotal (String × String) keyLE := by
  constructor
  intro a b
  rcases lt_trichotomy a.1 b.1 with h | h | h
  · exact Or.inl (Or.inl h)
  · rcases le_total a.2 b.2 with h2 | h2
    · exact Or.inl (Or.inr ⟨h, h2⟩)
    · exact Or.inr (Or.inr ⟨h.symm, h2⟩)
  · exact Or.inr (Or.inl h)

instance keyLE_trans : IsTrans (String × String) keyLE := by
  constructor
  intro a b c hab hbc
  rcases hab with h1 | ⟨h1, h1'⟩ <;> rcases hbc with h2 | ⟨h2, h2'⟩
  · exact Or.inl (h1.trans h2)
  · exact Or.inl (h2 ▸ h1)
  · exact Or.inl (h1 ▸ h2)
  · exact Or.inr ⟨h1.trans h2, h1'.trans h2'⟩

/-- The aggregation performed by `reporting_data`:
`df.groupby(['Crime type', 'Broad Outcome Category']).size()
.reset_index(name='Count')`.  With groupby's defaults, rows with a null key
are dropped, the distinct keys are emitted in ascending order, and each key
carries the number of rows in its group. -/
def reporting_agg (df : List ProcessedRow) : List AggRow :=
  let ks := groupKeys df
  (List.insertionSort keyLE ks.dedup).map (fun k => ⟨k.1, k.2, ks.count k⟩)

/-- The group key of an aggregate row. -/
def keyOf (a : AggRow) : String × String :=
  (a.Crime_type, a.Broad_Outcome_Category)

theorem reporting_agg_keys_eq (df : List ProcessedRow) :
    (reporting_agg df).map keyOf
      = List.insertionSort keyLE (groupKeys df).dedup := by
  simp only [reporting_agg, List.map_map]
  have h : (keyOf ∘ fun k : String × String =>
      (⟨k.1, k.2, (groupKeys df).count k⟩ : AggRow)) = id := by
    funext k
    simp [keyOf]
  rw [h, List.map_id]

theorem reporting_agg_counts_eq (df : List ProcessedRow) :
    (reporting_agg df).map AggRow.Count
      = (List.insertionSort keyLE (groupKeys df).dedup).map
          (fun k => (groupKeys df).count k) := by
  simp [reporting_agg, List.map_map, Function.comp]

theorem count_beq_ofDecidableEq (k : String × String)
    (l : List (String × String)) :
    List.count k l = @List.count _ instBEqOfDecidableEq k l := by
  induction l with
  | nil => rfl
  | cons x xs ih =>
    simp only [List.count_cons, ih]
    by_cases h : x = k <;> simp [instBEqOfDecidableEq, h]

theorem groupKeys_length_of_nonnull (df : List ProcessedRow)
    (h : ∀ r ∈ df, r.Crime_type ≠ none ∧ r.Broad_Outcome_Category ≠ none) :
    (groupKeys df).length = df.length := by
  induction df with
  | nil => simp [groupKeys]
  | cons r rest ih =>
    obtain ⟨h1, h2⟩ := h r (List.mem_cons_self r rest)
    obtain ⟨c, hc⟩ := Option.ne_none_iff_exists'.mp h1
    obtain ⟨b, hb⟩ := Option.ne_none_iff_exists'.mp h2
    have ih' := ih (fun r' hr' => h r' (List.mem_cons_of_mem r hr'))
    simp only [groupKeys, List.filterMap_cons, hc, hb] at *
    simp [ih']

/-- Claim C4 (amended): the reporting aggregate has exactly one row for each
distinct (crime type, broad category) pair whose two components are both
non-null, and the sum of the counts equals the number of rows with both key
fields non-null — hence equals the processed table's row count whenever no
key field is null.  (As stated, the claim fails: groupby's default
`dropna=True` drops rows with a null key, see
`reporting_aggregate_counterexample`.) -/
theorem reporting_aggregate_keys (df : List ProcessedRow) :
    ((reporting_agg df).map keyOf).Nodup ∧
    (∀ k, k ∈ (reporting_agg df).map keyOf ↔ k ∈ groupKeys df) ∧
    ((reporting_agg df).map AggRow.Count).sum = (groupKeys df).length ∧
    ((∀ r ∈ df, r.Crime_type ≠ none ∧ r.Broad_Outcome_Category ≠ none) →
      ((reporting_agg df).map AggRow.Count).sum = df.length) := by
  have hks := reporting_agg_keys_eq df
  have hperm : List.Perm (List.insertionSort keyLE (groupKeys df).dedup)
      (groupKeys df).dedup := List.perm_insertionSort keyLE _
  have hsum : ((reporting_agg df).map AggRow.Count).sum
      = (groupKeys df).length := by
    rw [reporting_agg_counts_eq df]
    rw [(hperm.map (fun k => (groupKeys df).count k)).sum_eq]
    have hc : ((groupKeys df).dedup.map
        (fun k => (groupKeys df).count k)).sum
        = ((groupKeys df).dedup.map
            (fun k => @List.count _ instBEqOfDecidableEq k
              (groupKeys df))).sum := by
      rw [List.map_congr_left (fun k _ => count_beq_ofDecidableEq k _)]
    rw [hc]
    exact List.sum_map_count_dedup_eq_length (groupKeys df)
  refine ⟨?_, ?_, hsum, ?_⟩
  · rw [hks]
    exact hperm.nodup_iff.mpr (List.nodup_dedup _)
  · intro k
    rw [hks]
    simp
  · intro h
    rw [hsum]
    exact groupKeys_length_of_nonnull df h

/-- A two-row processed table with non-null key fields. -/
def processedEx : List ProcessedRow :=
  [⟨some "id1", some "Burglary", some "Status update unavailable",
    some "Local resolution", some "Local resolution",
    some "Non-criminal Outcome"⟩,
   ⟨some "id2", some "Burglary", none, some "Local resolution",
    some "Local resolution", some "Non-criminal Outcome"⟩]

/-- A processed table whose single row has a null `Crime type`. -/
def processedNullEx : List ProcessedRow :=
  [⟨some "id1", none, some "Status update unavailable", none,
    some "Status update unavailable", some "No Further Action"⟩]

/-- Counterexample to claim C4 as stated: a row with a null `Crime type` is
dropped by the groupby, so the counts sum to 0 while the table has 1 row. -/
theorem reporting_aggregate_counterexample :
    ((reporting_agg processedNullEx).map AggRow.Count).sum
      ≠ processedNullEx.length := by
  decide

/-- Concrete instance of `reporting_aggregate_keys`: with all key fields
non-null the counts sum to the row count. -/
theorem reporting_aggregate_witness :
    ((reporting_agg processedEx).map AggRow.Count).sum
      = processedEx.length :=
  (reporting_aggregate_keys processedEx).2.2.2 (by decide)

/-- Claim C10: the rows of the reporting aggregate are emitted in strictly
ascending lexicographic order of the grouping key, `Crime type` first, then
`Broad Outcome Category`. -/
theorem reporting_rows_sorted (df : List ProcessedRow) :
    ((reporting_agg df).map keyOf).Pairwise keyLT := by
  rw [reporting_agg_keys_eq df]
  have hsorted : List.Sorted keyLE
      (List.insertionSort keyLE (groupKeys df).dedup) :=
    List.sorted_insertionSort keyLE _
  have hnodup : (List.insertionSort keyLE (groupKeys df).dedup).Nodup :=
    (List.perm_insertionSort keyLE _).nodup_iff.mpr (List.nodup_dedup _)
  have hboth := List.Pairwise.and hsorted hnodup
  refine hboth.imp ?_
  rintro a b ⟨hle, hne⟩
  rcases hle with h | ⟨h1, h2⟩
  · exact Or.inl h
  · exact Or.inr ⟨h1, lt_of_le_of_ne h2 (fun h3 => hne (Prod.ext h1 h3))⟩

/-! ### Files, ingestion and the orchestrator

The filesystem is a map from paths to file contents.  A file either fails
to parse as tabular data (pandas raises a `ValueError` subclass, the only
exception `ingest_data` catches) or parses to a table of one of the
pipeline's schemas.  The log produced via the `logging` module is returned
as a list of log events, one constructor per logging call in the source;
writing a table to CSV and re-reading it yields the same table. -/

/-- The parsed content of a tabular file, tagged by its schema. -/
inductive TableData where
  | street (rows : List StreetRow)
  | outcomes (rows : List OutcomeRow)
  | staged (rows : List StagedRow)
  | processed (rows : List ProcessedRow)
  | agg (rows : List AggRow)
deriving DecidableEq

/-- The content of a file on disk: either malformed tabular data, on which
`pd.read_csv` raises a `ValueError` with message `msg`, or data parsing to
table `t`. -/
inductive FileVal where
  | malformed (msg : String)
  | data (t : TableData)
deriving DecidableEq

/-- A filesystem: `none` means the path does not exist. -/
def FS : Type := String → Option FileVal

/-- Embeds `df.to_csv(path, index=False)`: overwrite `path` with table `t`. -/
def writeFile (fs : FS) (path : String) (t : TableData) : FS :=
  fun q => if q = path then some (FileVal.data t) else fs q

/-- Severities used by the source's logging calls. -/
inductive LogLevel where
  | info
  | error
  | critical
deriving DecidableEq

/-- One log event per logging call in `pipeline.py`, with the interpolated
values as arguments. -/
inductive LogMsg where
  /-- Event `Starting data ingestion from <path>` -/
  | startIngestion (path : String)
  /-- Event `File not found: <path>` -/
  | fileNotFound (path : String)
  /-- Event `Error reading the CSV file <path>: <e>` -/
  | readError (path : String) (e : String)
  /-- Event `Data ingestion from <path> completed successfully` -/
  | ingestionDone (path : String)
  /-- Event `Starting data staging` -/
  | startStaging
  /-- Event `Data staging completed successfully` -/
  | stagingDone
  /-- Event `Error during data staging: <e>` -/
  | stagingError
  /-- Event `Starting Data Processing` -/
  | startProcessing
  /-- Event `Data Processing completed successfully` -/
  | processingDone
  /-- Event `Error during data processing: <e>` -/
  | processingError
  /-- Event `Starting reporting data aggregation` -/
  | startReporting
  /-- Event `Reporting data aggregation completed successfully` -/
  | reportingDone
  /-- Event `Error during reporting data aggregation: <e>` -/
  | reportingError
  /-- Event `Pipeline execution started` -/
  | pipelineStarted
  /-- Event `Pipeline execution completed successfully` -/
  | pipelineCompleted
  /-- Event `Pipeline execution failed: <e>`; unreachable in this model, since
  every modelled operation is total. -/
  | pipelineFailed
deriving DecidableEq

/-- The severity each logging call uses in the source. -/
def LogMsg.level : LogMsg → LogLevel
  | .startIngestion _ => .info
  | .fileNotFound _ => .error
  | .readError _ _ => .error
  | .ingestionDone _ => .info
  | .startStaging => .info
  | .stagingDone => .info
  | .stagingError => .error
  | .startProcessing => .info
  | .processingDone => .info
  | .processingError => .error
  | .startReporting => .info
  | .reportingDone => .info
  | .reportingError => .error
  | .pipelineStarted => .info
  | .pipelineCompleted => .info
  | .pipelineFailed => .critical

/-- The hardcoded paths of `pipeline.py` (`os.path.join('./', name)`). -/
def LOCAL_DATA_PATH : String := "./"

def RAW_DATA_FILE : String := LOCAL_DATA_PATH ++ "2022-01-cheshire-street.csv"

def OUTCOMES_DATA_FILE : String :=
  LOCAL_DATA_PATH ++ "2022-01-cheshire-outcomes.csv"

def STAGED_DATA_FILE : String :=
  LOCAL_DATA_PATH ++ "staged_cheshire_street.csv"

def PROCESSING_DATA_FILE : String :=
  LOCAL_DATA_PATH ++ "processed_cheshire_street.csv"

def REPORTING_DATA_FILE : String :=
  LOCAL_DATA_PATH ++ "reporting_cheshire_street.csv"

/-- Embeds `ingest_data`: log the start; if the path does not exist, log an error
and return `None`; otherwise attempt to parse, returning the table on
success and logging the `ValueError` and returning `None` on failure.  No
exception propagates: every branch returns. -/
def ingest_data (fs : FS) (file_path : String) :
    Option TableData × List LogMsg :=
  match fs file_path with
  | none =>
      (none, [LogMsg.startIngestion file_path,
              LogMsg.fileNotFound file_path])
  | some (FileVal.malformed e) =>
      (none, [LogMsg.startIngestion file_path,
              LogMsg.readError file_path e])
  | some (FileVal.data t) =>
      (some t, [LogMsg.startIngestion file_path,
                LogMsg.ingestionDone file_path])

/-- Embeds `stage_data`: merge the two input tables, drop the fixed columns and
write the result.  When the inputs do not have the expected columns, the
body raises (a `KeyError` from the column accesses), which the
`try/except` turns into an error log with no file written. -/
def stage_data (fs : FS) (df df_outcomes : TableData)
    (output_file : String) : FS × List LogMsg :=
  match df, df_outcomes with
  | TableData.street rows, TableData.outcomes orows =>
      (writeFile fs output_file
        (TableData.staged (del_values_street (merge_data rows orows))),
       [LogMsg.startStaging, LogMsg.stagingDone])
  | _, _ => (fs, [LogMsg.startStaging, LogMsg.stagingError])

/-- Embeds `processing_data`: derive `Final Outcome` and `Broad Outcome Category`
and write the result.  A `None` input (upstream ingestion failed) or a
table without the staged columns raises inside the `try`, which is caught
and logged with no file written. -/
def processing_data (fs : FS) (df : Option TableData)
    (output_file : String) : FS × List LogMsg :=
  match df with
  | some (TableData.staged rows) =>
      (writeFile fs output_file
        (TableData.processed (apply_categorization (finaloutcome rows))),
       [LogMsg.startProcessing, LogMsg.processingDone])
  | _ => (fs, [LogMsg.startProcessing, LogMsg.processingError])

/-- Embeds `reporting_data`: group by (crime type, broad category), count group
sizes and write the aggregate.  A `None` input or a table without the two
grouping columns raises inside the `try`, which is caught and logged with
no file written. -/
def reporting_data (fs : FS) (df : Option TableData)
    (output_file : String) : FS × List LogMsg :=
  match df with
  | some (TableData.processed rows) =>
      (writeFile fs output_file (TableData.agg (reporting_agg rows)),
       [LogMsg.startReporting, LogMsg.reportingDone])
  | _ => (fs, [LogMsg.startReporting, LogMsg.reportingError])

/-- Embeds `main`: ingest both inputs; if both are present, stage, re-ingest the
staged file, process, re-ingest the processed file, report; in every case
log the final completion message.  The orchestrator's own `except` branch
(`pipelineFailed`) is unreachable in the model, since every modelled
operation is total. -/
def main (fs : FS) : FS × List LogMsg :=
  let r1 := ingest_data fs RAW_DATA_FILE
  let r2 := ingest_data fs OUTCOMES_DATA_FILE
  match r1.1, r2.1 with
  | some df, some df_outcomes =>
      let s := stage_data fs df df_outcomes STAGED_DATA_FILE
      let r3 := ingest_data s.1 STAGED_DATA_FILE
      let p := processing_data s.1 r3.1 PROCESSING_DATA_FILE
      let r4 := ingest_data p.1 PROCESSING_DATA_FILE
      let rep := reporting_data p.1 r4.1 REPORTING_DATA_FILE
      (rep.1,
        LogMsg.pipelineStarted ::
          (r1.2 ++ r2.2 ++ s.2 ++ r3.2 ++ p.2 ++ r4.2 ++ rep.2) ++
          [LogMsg.pipelineCompleted])
  | _, _ =>
      (fs, LogMsg.pipelineStarted :: (r1.2 ++ r2.2) ++
        [LogMsg.pipelineCompleted])

/-! ### Error handling of ingestion (claims C5, C6) -/

/-- Claim C5: for every path that does not exist, ingestion returns an
absent result and logs an error; no exception propagates (the modelled
function is total and returns on this branch). -/
theorem ingest_missing (fs : FS) (p : String) (h : fs p = none) :
    (ingest_data fs p).1 = none ∧
    LogMsg.fileNotFound p ∈ (ingest_data fs p).2 ∧
    (LogMsg.fileNotFound p).level = LogLevel.error := by
  simp [ingest_data, h, LogMsg.level]

/-- The empty filesystem. -/
def emptyFS : FS := fun _ => none

/-- Concrete instance of `ingest_missing` at the raw-data path of an empty
filesystem. -/
theorem ingest_missing_witness :
    emptyFS RAW_DATA_FILE = none ∧
    ((ingest_data emptyFS RAW_DATA_FILE).1 = none ∧
      LogMsg.fileNotFound RAW_DATA_FILE
        ∈ (ingest_data emptyFS RAW_DATA_FILE).2 ∧
      (LogMsg.fileNotFound RAW_DATA_FILE).level = LogLevel.error) :=
  ⟨rfl, ingest_missing emptyFS RAW_DATA_FILE rfl⟩

/-- Claim C6: for every file that exists but cannot be parsed as tabular
data, ingestion logs the error and returns an absent result; the
`ValueError` does not propagate (the modelled function is total and returns
on this branch). -/
theorem ingest_malformed (fs : FS) (p e : String)
    (h : fs p = some (FileVal.malformed e)) :
    (ingest_data fs p).1 = none ∧
    LogMsg.readError p e ∈ (ingest_data fs p).2 ∧
    (LogMsg.readError p e).level = LogLevel.error := by
  simp [ingest_data, h, LogMsg.level]

/-- A filesystem whose raw-data file exists but is malformed. -/
def malformedFS : FS :=
  fun q => if q = RAW_DATA_FILE
    then some (FileVal.malformed "No columns to parse from file")
    else none

/-- Concrete instance of `ingest_malformed` on `malformedFS`. -/
theorem ingest_malformed_witness :
    malformedFS RAW_DATA_FILE
      = some (FileVal.malformed "No columns to parse from file") ∧
    ((ingest_data malformedFS RAW_DATA_FILE).1 = none ∧
      LogMsg.readError RAW_DATA_FILE "No columns to parse from file"
        ∈ (ingest_data malformedFS RAW_DATA_FILE).2 ∧
      (LogMsg.readError RAW_DATA_FILE
        "No columns to parse from file").level = LogLevel.error) :=
  ⟨by simp [malformedFS],
   ingest_malformed malformedFS RAW_DATA_FILE
     "No columns to parse from file" (by simp [malformedFS])⟩

/-! ### The orchestrator's short-circuit (claim C7) -/

theorem ingest_logs_ingestion_only (fs : FS) (p : String) (m : LogMsg)
    (hm : m ∈ (ingest_data fs p).2) :
    (∃ q, m = LogMsg.startIngestion q) ∨
    (∃ q, m = LogMsg.fileNotFound q) ∨
    (∃ q e, m = LogMsg.readError q e) ∨
    (∃ q, m = LogMsg.ingestionDone q) := by
  rcases hfp : fs p with _ | fv
  · simp only [ingest_data, hfp, List.mem_cons, List.mem_singleton,
      List.not_mem_nil, or_false] at hm
    rcases hm with h | h <;> simp [h]
  · rcases fv with e | t <;>
      simp only [ingest_data, hfp, List.mem_cons, List.mem_singleton,
        List.not_mem_nil, or_false] at hm <;>
      rcases hm with h | h <;> simp [h]

theorem startStaging_not_in_ingest (fs : FS) (p : String) :
    LogMsg.startStaging ∉ (ingest_data fs p).2 := by
  intro hm
  rcases ingest_logs_ingestion_only fs p _ hm with
    ⟨q, hq⟩ | ⟨q, hq⟩ | ⟨q, e, hq⟩ | ⟨q, hq⟩ <;> cases hq

theorem startProcessing_not_in_ingest (fs : FS) (p : String) :
    LogMsg.startProcessing ∉ (ingest_data fs p).2 := by
  intro hm
  rcases ingest_logs_ingestion_only fs p _ hm with
    ⟨q, hq⟩ | ⟨q, hq⟩ | ⟨q, e, hq⟩ | ⟨q, hq⟩ <;> cases hq

theorem startReporting_not_in_ingest (fs : FS) (p : String) :
    LogMsg.startReporting ∉ (ingest_data fs p).2 := by
  intro hm
  rcases ingest_logs_ingestion_only fs p _ hm with
    ⟨q, hq⟩ | ⟨q, hq⟩ | ⟨q, e, hq⟩ | ⟨q, hq⟩ <;> cases hq

/-- Claim C7: when either initial ingestion returns an absent result, the
staging, processing and reporting stages are all skipped (the filesystem is
untouched and none of their start events is logged), yet the run still logs
the final completion message. -/
theorem main_skips_stages (fs : FS)
    (h : (ingest_data fs RAW_DATA_FILE).1 = none ∨
      (ingest_data fs OUTCOMES_DATA_FILE).1 = none) :
    (main fs).1 = fs ∧
    LogMsg.pipelineCompleted ∈ (main fs).2 ∧
    LogMsg.startStaging ∉ (main fs).2 ∧
    LogMsg.startProcessing ∉ (main fs).2 ∧
    LogMsg.startReporting ∉ (main fs).2 := by
  have hfs : (main fs).1 = fs ∧ (main fs).2
      = LogMsg.pipelineStarted ::
          ((ingest_data fs RAW_DATA_FILE).2 ++
            (ingest_data fs OUTCOMES_DATA_FILE).2) ++
          [LogMsg.pipelineCompleted] := by
    rcases h with h | h
    · rcases h2 : (ingest_data fs OUTCOMES_DATA_FILE).1 with _ | o <;>
        exact ⟨by simp [main, h, h2], by simp [main, h, h2]⟩
    · rcases h1 : (ingest_data fs RAW_DATA_FILE).1 with _ | d <;>
        exact ⟨by simp [main, h1, h], by simp [main, h1, h]⟩
  obtain ⟨hfs1, hfs2⟩ := hfs
  refine ⟨hfs1, by rw [hfs2]; simp, ?_, ?_, ?_⟩ <;>
    rw [hfs2] <;> intro hc <;> rcases List.mem_cons.mp hc with hc | hc <;>
    try cases hc
  all_goals
    rcases List.mem_append.mp hc with hc | hc
  case _ => rcases List.mem_append.mp hc with hc | hc
            exacts [startStaging_not_in_ingest fs _ hc,
                    startStaging_not_in_ingest fs _ hc]
  case _ => simp at hc
  case _ => rcases List.mem_append.mp hc with hc | hc
            exacts [startProcessing_not_in_ingest fs _ hc,
                    startProcessing_not_in_ingest fs _ hc]
  case _ => simp at hc
  case _ => rcases List.mem_append.mp hc with hc | hc
            exacts [startReporting_not_in_ingest fs _ hc,
                    startReporting_not_in_ingest fs _ hc]
  case _ => simp at hc

/-- Concrete instance of `main_skips_stages` on the empty filesystem. -/
theorem main_skips_stages_witness :
    ((ingest_data emptyFS RAW_DATA_FILE).1 = none ∨
      (ingest_data emptyFS OUTCOMES_DATA_FILE).1 = none) ∧
    ((main emptyFS).1 = emptyFS ∧
      LogMsg.pipelineCompleted ∈ (main emptyFS).2 ∧
      LogMsg.startStaging ∉ (main emptyFS).2 ∧
      LogMsg.startProcessing ∉ (main emptyFS).2 ∧
      LogMsg.startReporting ∉ (main emptyFS).2) :=
  ⟨Or.inl rfl, main_skips_stages emptyFS (Or.inl rfl)⟩

/-! ### Determinism of the outputs over a second run (claim C9) -/

theorem raw_ne_staged : RAW_DATA_FILE ≠ STAGED_DATA_FILE := by decide

theorem raw_ne_processing : RAW_DATA_FILE ≠ PROCESSING_DATA_FILE := by
  decide

theorem raw_ne_reporting : RAW_DATA_FILE ≠ REPORTING_DATA_FILE := by decide

theorem outcomes_ne_staged : OUTCOMES_DATA_FILE ≠ STAGED_DATA_FILE := by
  decide

theorem outcomes_ne_processing :
    OUTCOMES_DATA_FILE ≠ PROCESSING_DATA_FILE := by decide

theorem outcomes_ne_reporting :
    OUTCOMES_DATA_FILE ≠ REPORTING_DATA_FILE := by decide

theorem staged_ne_processing : STAGED_DATA_FILE ≠ PROCESSING_DATA_FILE := by
  decide

theorem staged_ne_reporting : STAGED_DATA_FILE ≠ REPORTING_DATA_FILE := by
  decide

theorem processing_ne_reporting :
    PROCESSING_DATA_FILE ≠ REPORTING_DATA_FILE := by decide

/-- The table a successful ingestion returns, as a function of the file's
content alone. -/
def ingestVal : Option FileVal → Option TableData
  | some (FileVal.data t) => some t
  | _ => none

theorem ingest_data_fst (fs : FS) (p : String) :
    (ingest_data fs p).1 = ingestVal (fs p) := by
  rcases h : fs p with _ | fv
  · simp [ingest_data, ingestVal, h]
  · rcases fv with e | t <;> simp [ingest_data, ingestVal, h]

/-- The content of the staging output path after `stage_data`, as a
function of the two input tables and the path's previous content. -/
def stageWrite (df df_outcomes : TableData) (cur : Option FileVal) :
    Option FileVal :=
  match df, df_outcomes with
  | TableData.street rows, TableData.outcomes orows =>
      some (FileVal.data
        (TableData.staged (del_values_street (merge_data rows orows))))
  | _, _ => cur

/-- The content of the processing output path after `processing_data`. -/
def processWrite (df : Option TableData) (cur : Option FileVal) :
    Option FileVal :=
  match df with
  | some (TableData.staged rows) =>
      some (FileVal.data
        (TableData.processed (apply_categorization (finaloutcome rows))))
  | _ => cur

/-- The content of the reporting output path after `reporting_data`. -/
def reportWrite (df : Option TableData) (cur : Option FileVal) :
    Option FileVal :=
  match df with
  | some (TableData.processed rows) =>
      some (FileVal.data (TableData.agg (reporting_agg rows)))
  | _ => cur

theorem stage_data_at (fs : FS) (df df_outcomes : TableData)
    (out : String) :
    (stage_data fs df df_outcomes out).1 out
      = stageWrite df df_outcomes (fs out) := by
  rcases df <;> rcases df_outcomes <;>
    simp [stage_data, stageWrite, writeFile]

theorem stage_data_other (fs : FS) (df df_outcomes : TableData)
    (out q : String) (h : q ≠ out) :
    (stage_data fs df df_outcomes out).1 q = fs q := by
  rcases df <;> rcases df_outcomes <;>
    simp [stage_data, writeFile, h]

theorem processing_data_at (fs : FS) (df : Option TableData)
    (out : String) :
    (processing_data fs df out).1 out = processWrite df (fs out) := by
  rcases df with _ | t
  · simp [processing_data, processWrite]
  · rcases t <;> simp [processing_data, processWrite, writeFile]

theorem processing_data_other (fs : FS) (df : Option TableData)
    (out q : String) (h : q ≠ out) :
    (processing_data fs df out).1 q = fs q := by
  rcases df with _ | t
  · simp [processing_data]
  · rcases t <;> simp [processing_data, writeFile, h]

theorem reporting_data_at (fs : FS) (df : Option TableData)
    (out : String) :
    (reporting_data fs df out).1 out = reportWrite df (fs out) := by
  rcases df with _ | t
  · simp [reporting_data, reportWrite]
  · rcases t <;> simp [reporting_data, reportWrite, writeFile]

theorem reporting_data_other (fs : FS) (df : Option TableData)
    (out q : String) (h : q ≠ out) :
    (reporting_data fs df out).1 q = fs q := by
  rcases df with _ | t
  · simp [reporting_data]
  · rcases t <;> simp [reporting_data, writeFile, h]

/-- The contents of the three output paths after one run, as a pure
function of the two ingested tables and the paths' previous contents. -/
def outputsAfter (d o : Option TableData) (s0 p0 r0 : Option FileVal) :
    Option FileVal × Option FileVal × Option FileVal :=
  match d, o with
  | some df, some df_outcomes =>
      let s1 := stageWrite df df_outcomes s0
      let p1 := processWrite (ingestVal s1) p0
      let r1 := reportWrite (ingestVal p1) r0
      (s1, p1, r1)
  | _, _ => (s0, p0, r0)

theorem main_outputs (fs : FS) :
    (main fs).1 STAGED_DATA_FILE
        = (outputsAfter (ingest_data fs RAW_DATA_FILE).1
            (ingest_data fs OUTCOMES_DATA_FILE).1
            (fs STAGED_DATA_FILE) (fs PROCESSING_DATA_FILE)
            (fs REPORTING_DATA_FILE)).1 ∧
    (main fs).1 PROCESSING_DATA_FILE
        = (outputsAfter (ingest_data fs RAW_DATA_FILE).1
            (ingest_data fs OUTCOMES_DATA_FILE).1
            (fs STAGED_DATA_FILE) (fs PROCESSING_DATA_FILE)
            (fs REPORTING_DATA_FILE)).2.1 ∧
    (main fs).1 REPORTING_DATA_FILE
        = (outputsAfter (ingest_data fs RAW_DATA_FILE).1
            (ingest_data fs OUTCOMES_DATA_FILE).1
            (fs STAGED_DATA_FILE) (fs PROCESSING_DATA_FILE)
            (fs REPORTING_DATA_FILE)).2.2 := by
  rcases h1 : (ingest_data fs RAW_DATA_FILE).1 with _ | df
  · rcases h2 : (ingest_data fs OUTCOMES_DATA_FILE).1 with _ | o <;>
      exact ⟨by simp [main, outputsAfter, h1, h2],
             by simp [main, outputsAfter, h1, h2],
             by simp [main, outputsAfter, h1, h2]⟩
  · rcases h2 : (ingest_data fs OUTCOMES_DATA_FILE).1 with _ | dfo
    · exact ⟨by simp [main, outputsAfter, h1, h2],
             by simp [main, outputsAfter, h1, h2],
             by simp [main, outputsAfter, h1, h2]⟩
    · have hs := stage_data_at fs df dfo STAGED_DATA_FILE
      have hds : (ingest_data
          (stage_data fs df dfo STAGED_DATA_FILE).1 STAGED_DATA_FILE).1
          = ingestVal (stageWrite df dfo (fs STAGED_DATA_FILE)) := by
        rw [ingest_data_fst, hs]
      refine ⟨?_, ?_, ?_⟩ <;>
        simp only [main, h1, h2, outputsAfter]
      · rw [reporting_data_other _ _ _ _ staged_ne_reporting,
          processing_data_other _ _ _ _ staged_ne_processing, hs]
      · rw [reporting_data_other _ _ _ _ processing_ne_reporting,
          processing_data_at, hds,
          stage_data_other _ _ _ _ _ staged_ne_processing.symm]
      · rw [reporting_data_at, hds, ingest_data_fst, processing_data_at,
          processing_data_other _ _ _ _ processing_ne_reporting.symm,
          stage_data_other _ _ _ _ _ staged_ne_processing.symm,
          stage_data_other _ _ _ _ _ staged_ne_reporting.symm]

theorem main_preserves_inputs (fs : FS) :
    (main fs).1 RAW_DATA_FILE = fs RAW_DATA_FILE ∧
    (main fs).1 OUTCOMES_DATA_FILE = fs OUTCOMES_DATA_FILE := by
  rcases h1 : (ingest_data fs RAW_DATA_FILE).1 with _ | df
  · rcases h2 : (ingest_data fs OUTCOMES_DATA_FILE).1 with _ | o <;>
      exact ⟨by simp [main, h1, h2], by simp [main, h1, h2]⟩
  · rcases h2 : (ingest_data fs OUTCOMES_DATA_FILE).1 with _ | dfo
    · exact ⟨by simp [main, h1, h2], by simp [main, h1, h2]⟩
    · constructor <;> simp only [main, h1, h2] <;>
        rw [reporting_data_other, processing_data_other,
          stage_data_other] <;>
        first
          | exact raw_ne_staged
          | exact raw_ne_processing
          | exact raw_ne_reporting
          | exact outcomes_ne_staged
          | exact outcomes_ne_processing
          | exact outcomes_ne_reporting

theorem stageWrite_idem (df df_outcomes : TableData)
    (cur : Option FileVal) :
    stageWrite df df_outcomes (stageWrite df df_outcomes cur)
      = stageWrite df df_outcomes cur := by
  rcases df <;> rcases df_outcomes <;> simp [stageWrite]

theorem processWrite_idem (df : Option TableData) (cur : Option FileVal) :
    processWrite df (processWrite df cur) = processWrite df cur := by
  rcases df with _ | t
  · simp [processWrite]
  · rcases t <;> simp [processWrite]

theorem reportWrite_idem (df : Option TableData) (cur : Option FileVal) :
    reportWrite df (reportWrite df cur) = reportWrite df cur := by
  rcases df with _ | t
  · simp [reportWrite]
  · rcases t <;> simp [reportWrite]

theorem outputsAfter_idem (d o : Option TableData)
    (s0 p0 r0 : Option FileVal) :
    outputsAfter d o (outputsAfter d o s0 p0 r0).1
        (outputsAfter d o s0 p0 r0).2.1
        (outputsAfter d o s0 p0 r0).2.2
      = outputsAfter d o s0 p0 r0 := by
  rcases d with _ | df
  · simp [outputsAfter]
  · rcases o with _ | dfo
    · simp [outputsAfter]
    · simp only [outputsAfter]
      rw [stageWrite_idem]
      rw [processWrite_idem]
      rw [reportWrite_idem]

/-- Claim C9: running the pipeline a second time against the unchanged
input files leaves the staged, processed and reporting output files exactly
as the first run wrote them: the output tables are a deterministic function
of the input files. -/
theorem main_deterministic_outputs (fs : FS) :
    (main (main fs).1).1 STAGED_DATA_FILE
        = (main fs).1 STAGED_DATA_FILE ∧
    (main (main fs).1).1 PROCESSING_DATA_FILE
        = (main fs).1 PROCESSING_DATA_FILE ∧
    (main (main fs).1).1 REPORTING_DATA_FILE
        = (main fs).1 REPORTING_DATA_FILE := by
  obtain ⟨e1, e2, e3⟩ := main_outputs fs
  obtain ⟨f1, f2, f3⟩ := main_outputs ((main fs).1)
  obtain ⟨g1, g2⟩ := main_preserves_inputs fs
  rw [ingest_data_fst ((main fs).1) RAW_DATA_FILE, g1,
    ← ingest_data_fst fs RAW_DATA_FILE] at f1 f2 f3
  rw [ingest_data_fst ((main fs).1) OUTCOMES_DATA_FILE, g2,
    ← ingest_data_fst fs OUTCOMES_DATA_FILE] at f1 f2 f3
  rw [e1, e2, e3] at f1 f2 f3
  rw [outputsAfter_idem] at f1 f2 f3
  exact ⟨f1.trans e1.symm, f2.trans e2.symm, f3.trans e3.symm⟩

end Pipeline
